import Mathlib

/-!
# Verification of the remacs cons-cell allocator core

Shallow embedding of `rust_src/src/cons.rs` (the cons-cell allocator of the
remacs fork): the data model (`LispObject` tagged words, the cons heap, the
free list and the accounting counters), the primitives `Fconsp`, `Fcons`,
`Fsetcar`, `Fsetcdr` and the helpers `CONSP`, `XCONS`, `XSETCAR`, `XSETCDR`,
followed by theorems settling the spec claims about them.

Conventions of the embedding:

* `LispObject` is the tagged machine word (`type LispObject = EmacsInt` in
  the source era).  The tagging helpers `XTYPE`, `XUNTAG` and `make_lisp_ptr`
  live in `lisp.rs`, outside the file under analysis; they are modelled after
  the spec's `make_tagged_reference(address, type)` contract with the usual
  64-bit LSB scheme: a reference is `8 * address + type-code`, the type code
  occupying the three alignment bits.  Addresses are in cell-slot units, with
  `0` playing the role of the null pointer.
* The mutable globals of the allocator (`cons_free_list`,
  `consing_since_gc`, `total_free_conses`) and the cons heap itself are
  gathered into an explicit state record `AllocState` that every stateful
  primitive threads through.  Counters are mathematical integers standing
  for `EmacsInt`; no claim here depends on 64-bit wraparound.
* Non-local error signalling (`CHECK_TYPE` from `lisp.rs`, the C function
  `CHECK_IMPURE`) is modelled with `Except`: an error aborts the primitive
  and returns the state unchanged, mirroring the fact that the real signal
  unwinds before any write executes.
-/

set_option autoImplicit false

namespace Remacs

/-- The tagged machine word (`type LispObject = EmacsInt` in this era of the
source); addresses and immediates are packed into it by the tagging scheme. -/
abbrev LispObject := Nat

/-- `EmacsInt`, the signed integer type of the accounting counters. -/
abbrev EmacsInt := Int

/-- The dynamic type discriminants. Modelled from the spec's
`make_tagged_reference(address, type)` contract: `LispType` itself is declared
in `lisp.rs`, outside the file under analysis; the constructor list and codes
follow the upstream `enum Lisp_Type` with LSB tagging (`Lisp_Cons = 3`). -/
inductive LispType
  | Lisp_Symbol
  | Lisp_Misc
  | Lisp_Int0
  | Lisp_Cons
  | Lisp_String
  | Lisp_Vectorlike
  | Lisp_Int1
  | Lisp_Float
deriving DecidableEq, Repr

/-- Numeric code of a type discriminant (the three tag bits). -/
def LispType.code : LispType → Nat
  | .Lisp_Symbol => 0
  | .Lisp_Misc => 1
  | .Lisp_Int0 => 2
  | .Lisp_Cons => 3
  | .Lisp_String => 4
  | .Lisp_Vectorlike => 5
  | .Lisp_Int1 => 6
  | .Lisp_Float => 7

/-- Decode the tag bits of a word back into a discriminant. -/
def decodeType (n : Nat) : LispType :=
  match n % 8 with
  | 0 => .Lisp_Symbol
  | 1 => .Lisp_Misc
  | 2 => .Lisp_Int0
  | 3 => .Lisp_Cons
  | 4 => .Lisp_String
  | 5 => .Lisp_Vectorlike
  | 6 => .Lisp_Int1
  | _ => .Lisp_Float

/-- `XTYPE`: the dynamic type tag of a word (external helper from `lisp.rs`,
modelled from the spec's tagged-reference contract). -/
def XTYPE (x : LispObject) : LispType := decodeType x

/-- `make_lisp_ptr(ptr, ty)`: build a tagged reference from an address and a
type discriminant (external, `extern "C"` in the source; modelled from the
spec's `make_tagged_reference`). -/
def make_lisp_ptr (addr : Nat) (ty : LispType) : LispObject :=
  8 * addr + ty.code

/-- `XUNTAG`: strip the type tag, recovering the address (external helper
from `lisp.rs`, inverse of `make_lisp_ptr`). -/
def XUNTAG (x : LispObject) (ty : LispType) : Nat :=
  (x - ty.code) / 8

/-- `Qnil`: the distinguished empty value, a symbol-tagged reference
(external constant; the nil symbol sits at address 0). -/
def Qnil : LispObject := make_lisp_ptr 0 .Lisp_Symbol

/-- `Qt`: the canonical truth value, a symbol-tagged reference
(external constant). -/
def Qt : LispObject := make_lisp_ptr 1 .Lisp_Symbol

/-- `Qconsp`: the symbol named `consp`, passed to `CHECK_TYPE` as the
predicate of the type error (external constant). -/
def Qconsp : LispObject := make_lisp_ptr 2 .Lisp_Symbol

/-- `CONSP(x)`: true iff the word's tag is the cons tag
(`XTYPE(x) == LispType::Lisp_Cons` in the source). -/
def CONSP (x : LispObject) : Bool := XTYPE x == LispType.Lisp_Cons

/-- `Fconsp(object)`: `Qt` if the argument is a cons cell, else `Qnil`. -/
def Fconsp (object : LispObject) : LispObject :=
  if CONSP object then Qt else Qnil

/-- `struct LispCons`: one heap slot of two words.  `car` holds the car of a
live cell; per the source's `LispConsChain` emulation of the C union, the
first word of a slot doubles as the raw `chain` pointer while the slot sits
on the free list (`(*cons_free_list).chain` reads the word at offset 0). -/
structure LispCons where
  car : LispObject
  cdr : LispObject
deriving DecidableEq, Repr

/-- The allocator state: the cons heap (slot contents by address), the
mutable globals `cons_free_list` (head address of the free chain, 0 = null),
`consing_since_gc` and `total_free_conses`, and the pure-storage predicate
consulted by `CHECK_IMPURE` (modelled from the spec's purity guard; the real
check is address-range membership in pure storage). -/
structure AllocState where
  heap : Nat → LispCons
  cons_free_list : Nat
  consing_since_gc : EmacsInt
  total_free_conses : EmacsInt
  is_pure : Nat → Bool

/-- Pointwise update of the heap at one address. -/
def writeSlot (h : Nat → LispCons) (a : Nat) (c : LispCons) : Nat → LispCons :=
  fun x => if x = a then c else h x

/-- `XCONS(a)`: the address of the `LispCons` data behind a (cons-tagged)
word; `mem::transmute(XUNTAG(a, Lisp_Cons))` in the source. -/
def XCONS (a : LispObject) : Nat := XUNTAG a .Lisp_Cons

/-- `XSETCAR(c, n)`: write the car field of the slot behind `c`. -/
def XSETCAR (c n : LispObject) (s : AllocState) : AllocState :=
  { s with heap := writeSlot s.heap (XCONS c) { s.heap (XCONS c) with car := n } }

/-- `XSETCDR(c, n)`: write the cdr field of the slot behind `c`. -/
def XSETCDR (c n : LispObject) (s : AllocState) : AllocState :=
  { s with heap := writeSlot s.heap (XCONS c) { s.heap (XCONS c) with cdr := n } }

/-- Read the car field of the slot behind `c` (the `XCAR` accessor; the spec's
"reading the cell's first field"). -/
def XCAR (s : AllocState) (c : LispObject) : LispObject := (s.heap (XCONS c)).car

/-- Read the cdr field of the slot behind `c` (the `XCDR` accessor; the spec's
"reading the cell's second field"). -/
def XCDR (s : AllocState) (c : LispObject) : LispObject := (s.heap (XCONS c)).cdr

/-- The error kinds signalled by this core (spec section 7): a type error
carries the failed predicate and offending value, an immutability error the
value whose mutation was refused. -/
inductive LispError
  | TypeError (predicate : LispObject) (value : LispObject)
  | ImmutabilityError (value : LispObject)
deriving DecidableEq, Repr

/-- Modelled from the spec: `CHECK_TYPE(ok, predicate, x)` lives in `lisp.rs`
outside the file under analysis; per the spec's `signal_type_error`, it
signals a type error (non-local, aborting the primitive) when the check
fails, and does nothing otherwise. -/
def CHECK_TYPE (ok : Bool) (predicate x : LispObject) : Except LispError Unit :=
  if ok then .ok () else .error (.TypeError predicate x)

/-- Modelled from the spec: `CHECK_IMPURE(obj, ptr)` is an `extern "C"`
function (C side of the repository, not under `src/`); per the spec's purity
guard and `signal_immutability_error`, it signals an immutability error when
the cell's storage is marked pure, before any write. -/
def CHECK_IMPURE (s : AllocState) (obj : LispObject) (addr : Nat) :
    Except LispError Unit :=
  if s.is_pure addr then .error (.ImmutabilityError obj) else .ok ()

/-- `Fsetcar(cell, newcar)`: type check, purity check, then write the car and
return `newcar`.  An error aborts before the write, leaving the state as it
was (the real signal unwinds non-locally). -/
def Fsetcar (cell newcar : LispObject) (s : AllocState) :
    Except LispError LispObject × AllocState :=
  match CHECK_TYPE (CONSP cell) Qconsp cell with
  | .error e => (.error e, s)
  | .ok _ =>
    match CHECK_IMPURE s cell (XCONS cell) with
    | .error e => (.error e, s)
    | .ok _ => (.ok newcar, XSETCAR cell newcar s)

/-- `Fsetcdr(cell, newcar)`: type check, purity check, then write the cdr and
return the new value (the source also names the parameter `newcar`). -/
def Fsetcdr (cell newcar : LispObject) (s : AllocState) :
    Except LispError LispObject × AllocState :=
  match CHECK_TYPE (CONSP cell) Qconsp cell with
  | .error e => (.error e, s)
  | .ok _ =>
    match CHECK_IMPURE s cell (XCONS cell) with
    | .error e => (.error e, s)
    | .ok _ => (.ok newcar, XSETCDR cell newcar s)

/-- `mem::size_of::<LispCons>() as i64`: two 8-byte words on the 64-bit
target. -/
def size_of_LispCons : EmacsInt := 16

/-- `Fcons(car, cdr)`: `val` starts as the raw word `1`; if the free list is
non-null its head becomes the new cell (`make_lisp_ptr` tags the head
address, and the head's first word — `(*cons_free_list).chain` — becomes the
new free-list head); otherwise the source's block-allocation branch is an
empty stub and `val` stays `1`.  Then the car and cdr are written through
`val` and the accounting runs: `consing_since_gc += size_of::<LispCons>()`
and `total_free_conses += 1` (sic — the source increments). -/
def Fcons (car cdr : LispObject) (s : AllocState) : LispObject × AllocState :=
  let val : LispObject := 1
  let step :=
    if s.cons_free_list ≠ 0 then
      (make_lisp_ptr s.cons_free_list LispType.Lisp_Cons,
        { s with cons_free_list := (s.heap s.cons_free_list).car })
    else
      (val, s)
  let s1 := XSETCAR step.1 car step.2
  let s2 := XSETCDR step.1 cdr s1
  let s3 := { s2 with
    consing_since_gc := s2.consing_since_gc + size_of_LispCons,
    total_free_conses := s2.total_free_conses + 1 }
  (step.1, s3)

/-- Modelled from the spec: the FreeList `push(cell)` is the collector's
reclaim step, outside the file under analysis.  Per spec sections 3 and 4.2
it prepends the cell to the chain, overwriting the cell's storage (the word
the pop path reads as `chain`) with the old head, and increments the
count-of-available-free-cells. -/
def free_list_push (addr : Nat) (s : AllocState) : AllocState :=
  { s with
    heap := writeSlot s.heap addr { s.heap addr with car := s.cons_free_list },
    cons_free_list := addr,
    total_free_conses := s.total_free_conses + 1 }

/-! ## Concrete states used by witnesses and counterexamples -/

/-- A heap whose every slot is zeroed. -/
def zeroHeap : Nat → LispCons := fun _ => ⟨0, 0⟩

/-- A state with an empty free list and zeroed counters. -/
def emptyFreeState : AllocState :=
  { heap := zeroHeap
    cons_free_list := 0
    consing_since_gc := 0
    total_free_conses := 0
    is_pure := fun _ => false }

/-- A state whose free list holds exactly one cell, at address 2 (its first
word, the chain link, is 0, ending the chain), with `total_free_conses = 1`. -/
def oneFreeState : AllocState :=
  { heap := zeroHeap
    cons_free_list := 2
    consing_since_gc := 0
    total_free_conses := 1
    is_pure := fun _ => false }

/-- A state with an empty free list in which every address is pure storage. -/
def pureState : AllocState :=
  { heap := zeroHeap
    cons_free_list := 0
    consing_since_gc := 0
    total_free_conses := 0
    is_pure := fun _ => true }

/-! ## Helper lemmas -/

/-- Tagging a slot address as a cons and untagging it is the identity. -/
theorem XCONS_make_lisp_ptr (addr : Nat) :
    XCONS (make_lisp_ptr addr .Lisp_Cons) = addr := by
  simp [XCONS, XUNTAG, make_lisp_ptr, LispType.code]

/-- A cons-tagged reference satisfies `CONSP`. -/
theorem CONSP_make_lisp_ptr (addr : Nat) :
    CONSP (make_lisp_ptr addr .Lisp_Cons) = true := by
  simp [CONSP, XTYPE, make_lisp_ptr, LispType.code, decodeType, Nat.mul_add_mod]

/-! ## Claim theorems -/

/-- Claim C1: for every pair of values `a` and `b`, when `Fcons a b` obtains a
cell (here: from a non-empty free list, the only working allocation path),
reading the returned cell's first field yields `a` and reading its second
field yields `b`. -/
theorem cons_car_cdr (a b : LispObject) (s : AllocState)
    (h : s.cons_free_list ≠ 0) :
    XCAR (Fcons a b s).2 (Fcons a b s).1 = a ∧
    XCDR (Fcons a b s).2 (Fcons a b s).1 = b := by
  simp [Fcons, h, XCAR, XCDR, XSETCAR, XSETCDR, writeSlot, XCONS_make_lisp_ptr]

/-- Claim C1 witness: the theorem at `a = 42`, `b = 50` in a state whose free
list holds the cell at address 2. -/
theorem cons_car_cdr_witness :
    oneFreeState.cons_free_list ≠ 0 ∧
    XCAR (Fcons 42 50 oneFreeState).2 (Fcons 42 50 oneFreeState).1 = 42 ∧
    XCDR (Fcons 42 50 oneFreeState).2 (Fcons 42 50 oneFreeState).1 = 50 :=
  ⟨by decide, (cons_car_cdr 42 50 oneFreeState (by decide)).1,
    (cons_car_cdr 42 50 oneFreeState (by decide)).2⟩

/-- Claim C2, evaluated at the failing input: with an empty free list the
source's block-allocation branch is an empty stub, so `Fcons` leaves `val` at
the raw word `1` and returns it — the result is not a cons cell at all
(`CONSP` is false, `Fconsp` returns `Qnil`), and no Block is allocated,
contradicting the claim that `cons` then succeeds by growing the heap. -/
theorem cons_empty_free_list_stub :
    (Fcons Qt Qnil emptyFreeState).1 = 1 ∧
    CONSP (Fcons Qt Qnil emptyFreeState).1 = false ∧
    Fconsp (Fcons Qt Qnil emptyFreeState).1 = Qnil := by decide

/-- Claim C3, evaluated at the failing input: allocating the single free cell
of `oneFreeState` (free count 1) leaves `total_free_conses` at 2 — the source
executes `total_free_conses += 1` where the claim (and the upstream C code it
ports) requires a decrement to 0. -/
theorem cons_free_count_incremented :
    oneFreeState.total_free_conses = 1 ∧
    (Fcons Qt Qnil oneFreeState).1 = make_lisp_ptr 2 LispType.Lisp_Cons ∧
    (Fcons Qt Qnil oneFreeState).2.total_free_conses = 2 := by decide

/-- Claim C4: for every value `v` that is not a cons cell and every value
`x`, `Fsetcar v x` and `Fsetcdr v x` signal a type error and return the state
unchanged — the error is detected before any write. -/
theorem setcar_setcdr_type_guard (s : AllocState) (v x : LispObject)
    (h : CONSP v = false) :
    Fsetcar v x s = (Except.error (LispError.TypeError Qconsp v), s) ∧
    Fsetcdr v x s = (Except.error (LispError.TypeError Qconsp v), s) := by
  simp [Fsetcar, Fsetcdr, CHECK_TYPE, h]

/-- Claim C4 witness: the theorem at `v = Qnil` (not a cons), `x = Qt`. -/
theorem setcar_setcdr_type_guard_witness :
    CONSP Qnil = false ∧
    Fsetcar Qnil Qt oneFreeState =
      (Except.error (LispError.TypeError Qconsp Qnil), oneFreeState) ∧
    Fsetcdr Qnil Qt oneFreeState =
      (Except.error (LispError.TypeError Qconsp Qnil), oneFreeState) :=
  ⟨by decide, (setcar_setcdr_type_guard oneFreeState Qnil Qt (by decide)).1,
    (setcar_setcdr_type_guard oneFreeState Qnil Qt (by decide)).2⟩

/-- Claim C5: for every cons cell `c` whose storage is marked pure and every
value `v`, `Fsetcar c v` and `Fsetcdr c v` signal an immutability error,
return the state unchanged, and in particular leave both fields of `c`
unchanged. -/
theorem setcar_setcdr_purity_guard (s : AllocState) (c v : LispObject)
    (hc : CONSP c = true) (hp : s.is_pure (XCONS c) = true) :
    Fsetcar c v s = (Except.error (LispError.ImmutabilityError c), s) ∧
    Fsetcdr c v s = (Except.error (LispError.ImmutabilityError c), s) ∧
    XCAR (Fsetcar c v s).2 c = XCAR s c ∧
    XCDR (Fsetcar c v s).2 c = XCDR s c ∧
    XCAR (Fsetcdr c v s).2 c = XCAR s c ∧
    XCDR (Fsetcdr c v s).2 c = XCDR s c := by
  simp [Fsetcar, Fsetcdr, CHECK_TYPE, CHECK_IMPURE, hc, hp]

/-- Claim C5 witness: the theorem at the cons-tagged word 19 (address 2) in a
state where all storage is pure. -/
theorem setcar_setcdr_purity_guard_witness :
    CONSP 19 = true ∧ pureState.is_pure (XCONS 19) = true ∧
    Fsetcar 19 7 pureState =
      (Except.error (LispError.ImmutabilityError 19), pureState) ∧
    Fsetcdr 19 7 pureState =
      (Except.error (LispError.ImmutabilityError 19), pureState) :=
  ⟨by decide, by decide,
    (setcar_setcdr_purity_guard pureState 19 7 (by decide) (by decide)).1,
    (setcar_setcdr_purity_guard pureState 19 7 (by decide) (by decide)).2.1⟩

/-- Claim C6: for every mutable cons cell `c` and value `v`, `Fsetcar c v`
returns `v` and sets the first field of `c` to `v` leaving the second field
unchanged; symmetrically `Fsetcdr c v` returns `v` and sets the second field
leaving the first unchanged. -/
theorem setcar_setcdr_frame (s : AllocState) (c v : LispObject)
    (hc : CONSP c = true) (hp : s.is_pure (XCONS c) = false) :
    (Fsetcar c v s).1 = Except.ok v ∧
    XCAR (Fsetcar c v s).2 c = v ∧
    XCDR (Fsetcar c v s).2 c = XCDR s c ∧
    (Fsetcdr c v s).1 = Except.ok v ∧
    XCDR (Fsetcdr c v s).2 c = v ∧
    XCAR (Fsetcdr c v s).2 c = XCAR s c := by
  simp [Fsetcar, Fsetcdr, CHECK_TYPE, CHECK_IMPURE, hc, hp, XSETCAR, XSETCDR,
    XCAR, XCDR, writeSlot]

/-- Claim C6 witness: the theorem at the cons-tagged word 19 (address 2),
`v = 7`, in a state with no pure storage. -/
theorem setcar_setcdr_frame_witness :
    CONSP 19 = true ∧ oneFreeState.is_pure (XCONS 19) = false ∧
    (Fsetcar 19 7 oneFreeState).1 = Except.ok 7 ∧
    XCAR (Fsetcar 19 7 oneFreeState).2 19 = 7 ∧
    (Fsetcdr 19 7 oneFreeState).1 = Except.ok 7 ∧
    XCDR (Fsetcdr 19 7 oneFreeState).2 19 = 7 :=
  ⟨by decide, by decide,
    (setcar_setcdr_frame oneFreeState 19 7 (by decide) (by decide)).1,
    (setcar_setcdr_frame oneFreeState 19 7 (by decide) (by decide)).2.1,
    (setcar_setcdr_frame oneFreeState 19 7 (by decide) (by decide)).2.2.2.1,
    (setcar_setcdr_frame oneFreeState 19 7 (by decide) (by decide)).2.2.2.2.1⟩

/-- Claim C7 counterexample: the claim asserts `consp` is true for every
value returned by `cons`, but with an empty free list `Fcons` returns the raw
word `1` (the stubbed block-allocation branch), on which `Fconsp` yields
`Qnil`, not `Qt`. -/
theorem consp_of_cons_counterexample :
    Fconsp (Fcons Qnil Qnil emptyFreeState).1 = Qnil ∧ Qnil ≠ Qt := by decide

/-- Claim C7 as amended: `Fconsp v = Qt` iff `v`'s dynamic type tag is the
cons tag; it yields `Qnil` on every non-cell value, in particular on `Qnil`
itself; and it yields `Qt` on every value returned by `Fcons` from a
non-empty free list (the only working allocation path).  It is a pure total
function: no side effects, never fails. -/
theorem consp_characterization :
    (∀ v : LispObject, Fconsp v = Qt ↔ XTYPE v = LispType.Lisp_Cons) ∧
    (∀ v : LispObject, XTYPE v ≠ LispType.Lisp_Cons → Fconsp v = Qnil) ∧
    Fconsp Qnil = Qnil ∧
    (∀ (a b : LispObject) (s : AllocState), s.cons_free_list ≠ 0 →
      Fconsp (Fcons a b s).1 = Qt) := by
  refine ⟨?_, ?_, by decide, ?_⟩
  · intro v
    by_cases h : XTYPE v = LispType.Lisp_Cons <;> simp [Fconsp, CONSP, h, Qt, Qnil,
      make_lisp_ptr, LispType.code]
  · intro v h
    simp [Fconsp, CONSP, h]
  · intro a b s h
    simp [Fcons, h, Fconsp, CONSP_make_lisp_ptr]

/-- Claim C7 witness: the amended cons clause at a state whose free list
holds the cell at address 2. -/
theorem consp_characterization_witness :
    Fconsp (Fcons Qnil Qnil oneFreeState).1 = Qt :=
  consp_characterization.2.2.2 Qnil Qnil oneFreeState (by decide)

/-- Claim C8, evaluated at the failing input: pushing the cell at address 3
onto the free list and popping it with the next `Fcons` does return the very
cell that was pushed, but the free-count accounting does not return to its
pre-push value 0 — the push adds 1 and the pop path adds 1 again
(`total_free_conses += 1` in the source instead of a decrement), ending at
2. -/
theorem push_pop_roundtrip_eval :
    (Fcons Qt Qt (free_list_push 3 emptyFreeState)).1 =
      make_lisp_ptr 3 LispType.Lisp_Cons ∧
    emptyFreeState.total_free_conses = 0 ∧
    (Fcons Qt Qt (free_list_push 3 emptyFreeState)).2.total_free_conses = 2 := by
  decide

/-- Claim C9: every call to `Fcons` increments `consing_since_gc` by exactly
`size_of_LispCons` (the storage size of one cell), which is positive, so the
counter only increases; the other mutating primitives of this core,
`Fsetcar` and `Fsetcdr`, never change it. -/
theorem cons_consing_accounting (a b c v : LispObject) (s : AllocState) :
    (Fcons a b s).2.consing_since_gc = s.consing_since_gc + size_of_LispCons ∧
    0 < size_of_LispCons ∧
    (Fsetcar c v s).2.consing_since_gc = s.consing_since_gc ∧
    (Fsetcdr c v s).2.consing_since_gc = s.consing_since_gc := by
  refine ⟨?_, by decide, ?_, ?_⟩
  · by_cases h : s.cons_free_list = 0 <;> simp [Fcons, h, XSETCAR, XSETCDR]
  · cases hc : CONSP c <;> cases hp : s.is_pure (XCONS c) <;>
      simp [Fsetcar, CHECK_TYPE, CHECK_IMPURE, hc, hp, XSETCAR]
  · cases hc : CONSP c <;> cases hp : s.is_pure (XCONS c) <;>
      simp [Fsetcdr, CHECK_TYPE, CHECK_IMPURE, hc, hp, XSETCDR]

/-- Claim C10: in `Fsetcar` and `Fsetcdr` the type check runs before the
purity check — for every non-cell value `v`, even one whose address is
marked pure, the call signals a type error and never an immutability
error. -/
theorem type_error_before_purity (s : AllocState) (v x : LispObject)
    (h : CONSP v = false) (_hp : s.is_pure (XCONS v) = true) :
    (Fsetcar v x s).1 = Except.error (LispError.TypeError Qconsp v) ∧
    (Fsetcdr v x s).1 = Except.error (LispError.TypeError Qconsp v) ∧
    (∀ w, (Fsetcar v x s).1 ≠ Except.error (LispError.ImmutabilityError w)) ∧
    (∀ w, (Fsetcdr v x s).1 ≠ Except.error (LispError.ImmutabilityError w)) := by
  simp [Fsetcar, Fsetcdr, CHECK_TYPE, h]

/-- Claim C10 witness: the theorem at `v = Qnil` in a state where all
storage, including the address `XCONS Qnil`, is pure. -/
theorem type_error_before_purity_witness :
    CONSP Qnil = false ∧ pureState.is_pure (XCONS Qnil) = true ∧
    (Fsetcar Qnil Qt pureState).1 =
      Except.error (LispError.TypeError Qconsp Qnil) ∧
    (Fsetcdr Qnil Qt pureState).1 =
      Except.error (LispError.TypeError Qconsp Qnil) :=
  ⟨by decide, by decide,
    (type_error_before_purity pureState Qnil Qt (by decide) (by decide)).1,
    (type_error_before_purity pureState Qnil Qt (by decide) (by decide)).2.1⟩

end Remacs
